import Mathlib

/-!
Verification of the hybrid recipe search engine of `fordb/cooking-assistant`
against its natural-language specification.

Text is modelled as lists of Unicode code points (`Str := List Nat`); Python
floats are modelled as exact rationals (`ℚ`).  Pure functions of the source
(`src/vector/keywords.py`, `src/vector/filters.py`, `src/vector/store.py`) are
translated definition by definition; the external Chroma backend is an input
parameter.
-/

/-- Text as a list of Unicode code points (the model of a Python `str`). -/
abbrev Str := List Nat

/-- Convert a Lean string literal into the code-point model. -/
def str (s : String) : Str := s.toList.map Char.toNat

/-- Model of Python `str.lower` on one code point (ASCII range; the source's
regex only keeps ASCII alphanumerics afterwards). -/
def lowerCp (n : Nat) : Nat := if 65 ≤ n ∧ n ≤ 90 then n + 32 else n

/-- Model of Python `str.lower` on a string. -/
def lowerStr (s : Str) : Str := s.map lowerCp

/-- The regex class `[a-zA-Z0-9]` of `tokenize_text`. -/
def isAlnumCp (n : Nat) : Bool :=
  (48 ≤ n && n ≤ 57) || (65 ≤ n && n ≤ 90) || (97 ≤ n && n ≤ 122)

/-- A lowercase ASCII alphanumeric code point. -/
def isLowerAlnumCp (n : Nat) : Bool := (48 ≤ n && n ≤ 57) || (97 ≤ n && n ≤ 122)

/-- The regex class `\s` (Python whitespace) used by `tokenize_text`. -/
def isWsCp (n : Nat) : Bool := n = 32 || n = 9 || n = 10 || n = 13 || n = 11 || n = 12

/-- One character step of `re.sub(r'[^a-zA-Z0-9\s]', ' ', text.lower())`:
lower-case, keep alphanumerics and whitespace, replace the rest by a space. -/
def subCp (n : Nat) : Nat :=
  let d := lowerCp n
  if isAlnumCp d || isWsCp d then d else 32

/-- Accumulator-based whitespace splitter: the model of Python `str.split()`
(split on whitespace runs, dropping empty pieces).  `cur` holds the current
token reversed. -/
def splitWsGo : Str → Str → List Str
  | cur, [] => if cur = [] then [] else [cur.reverse]
  | cur, c :: cs =>
    if isWsCp c then
      (if cur = [] then splitWsGo [] cs else cur.reverse :: splitWsGo [] cs)
    else splitWsGo (c :: cur) cs

/-- Python `text.split()` on whitespace. -/
def splitWs (s : Str) : List Str := splitWsGo [] s

/-- `tokenize_text` from `src/vector/keywords.py`: lower-case, replace every
character that is not an ASCII letter or digit (and not whitespace) by a
space, then split on whitespace dropping empty tokens. -/
def tokenize_text (text : Str) : List Str := splitWs (text.map subCp)

/-- `COOKING_STOPWORDS` from `src/vector/keywords.py`, verbatim. -/
def COOKING_STOPWORDS : List Str :=
  [str "a", str "an", str "and", str "are", str "as", str "at", str "be",
   str "by", str "for", str "from", str "has", str "he", str "in", str "is",
   str "it", str "its", str "of", str "on", str "that", str "the", str "to",
   str "was", str "will", str "with", str "add", str "then", str "into",
   str "over", str "until", str "about", str "all", str "also", str "can",
   str "or"]

/-- Modelled from the spec: the snapshot's `VectorConfig`
(`src/common/config.py`) lacks the filtering and keyword attributes that
`filters.py` and `keywords.py` read (`ENABLE_FILTERING`,
`MIN_KEYWORD_LENGTH`, `STOPWORDS_ENABLED`, the `*_FILTER` bounds and the
supported difficulty/dietary lists); those fields are modelled from the
spec (minimum keyword length default 2, stopword removal enabled, filtering
enabled, servings bounded by `[1,50]`, difficulty enum
Beginner/Intermediate/Advanced).  `DEFAULT_SEARCH_LIMIT` and
`SIMILARITY_THRESHOLD` are taken from the source. -/
structure VectorConfig where
  DEFAULT_SEARCH_LIMIT : Int := 10
  SIMILARITY_THRESHOLD : ℚ := 7/10
  ENABLE_FILTERING : Bool := true
  MIN_KEYWORD_LENGTH : Nat := 2
  STOPWORDS_ENABLED : Bool := true
  SUPPORTED_DIFFICULTIES : List Str :=
    [str "Beginner", str "Intermediate", str "Advanced"]
  MIN_PREP_TIME_FILTER : Int := 0
  MAX_PREP_TIME_FILTER : Int := 480
  MIN_COOK_TIME_FILTER : Int := 0
  MAX_COOK_TIME_FILTER : Int := 480
  MIN_SERVINGS_FILTER : Int := 1
  MAX_SERVINGS_FILTER : Int := 50
  SUPPORTED_DIETARY_RESTRICTIONS : List Str :=
    [str "vegetarian", str "vegan", str "gluten-free", str "dairy-free"]

/-- The process-wide configuration instance (`get_vector_config()`). -/
def defaultVectorConfig : VectorConfig := {}

/-- The shared keyword filter loop of `extract_query_keywords` and
`extract_recipe_keywords`: keep tokens of length at least
`MIN_KEYWORD_LENGTH` whose lower-casing is not a stopword (when stopword
removal is enabled), appending the lower-cased token. -/
def filterKeywords (cfg : VectorConfig) (tokens : List Str) : List Str :=
  (tokens.filter (fun t =>
    decide (cfg.MIN_KEYWORD_LENGTH ≤ t.length) &&
      (!cfg.STOPWORDS_ENABLED || !(COOKING_STOPWORDS.contains (lowerStr t))))).map lowerStr

/-- `extract_query_keywords` from `src/vector/keywords.py`. -/
def extract_query_keywords (cfg : VectorConfig) (query : Str) : List Str :=
  filterKeywords cfg (tokenize_text query)

/-- The fields of `src/recipes/models.Recipe` used by keyword extraction. -/
structure Recipe where
  title : Str
  ingredients : List Str
  instructions : List Str

/-- Python `' '.join`. -/
def joinSp : List Str → Str
  | [] => []
  | [x] => x
  | x :: y :: rest => x ++ 32 :: joinSp (y :: rest)

/-- `extract_recipe_keywords` from `src/vector/keywords.py`: join the title
twice, the ingredients and the instructions with spaces, tokenize, and run
the keyword filter. -/
def extract_recipe_keywords (cfg : VectorConfig) (r : Recipe) : List Str :=
  filterKeywords cfg
    (tokenize_text (joinSp ([r.title, r.title] ++ r.ingredients ++ r.instructions)))

/-- A metadata value as seen by the filter engine: either a value on which
Python `int(...)` succeeds (modelled by the resulting integer) or one on
which it raises `ValueError`/`TypeError`. -/
inductive MetaVal where
  | intv : Int → MetaVal
  | nonNumeric : MetaVal
deriving DecidableEq

/-- Python `int(v)`: `some` the integer when conversion succeeds. -/
def MetaVal.toIntOpt : MetaVal → Option Int
  | .intv n => some n
  | .nonNumeric => none

/-- The metadata record carried on a search result (`metadata.get(...)`
lookups of `apply_metadata_filters`); `none` models an absent key. -/
structure Metadata where
  difficulty : Option Str := none
  prep_time : Option MetaVal := none
  cook_time : Option MetaVal := none
  servings : Option MetaVal := none
  title : Option Str := none
  ingredients : Option (List Str) := none
deriving DecidableEq

/-- A search result entering `apply_metadata_filters`.  `metadata` is the
value of `result.get('metadata') or result.get('recipe', {})`; `none` models
a missing or empty (falsy) metadata dict, which the loop skips. -/
structure SearchResult where
  id : Nat
  metadata : Option Metadata
deriving DecidableEq

/-- `RecipeFilter` from `src/vector/filters.py` (the dataclass fields). -/
structure RecipeFilter where
  difficulty : Option Str := none
  prep_time_min : Option Int := none
  prep_time_max : Option Int := none
  cook_time_min : Option Int := none
  cook_time_max : Option Int := none
  servings_min : Option Int := none
  servings_max : Option Int := none
  dietary_restrictions : Option (List Str) := none
  max_total_time : Option Int := none
deriving DecidableEq

/-- `RecipeFilter.has_filters`: any field `is not None`. -/
def RecipeFilter.has_filters (f : RecipeFilter) : Bool :=
  f.difficulty.isSome || f.prep_time_min.isSome || f.prep_time_max.isSome ||
  f.cook_time_min.isSome || f.cook_time_max.isSome || f.servings_min.isSome ||
  f.servings_max.isSome || f.dietary_restrictions.isSome || f.max_total_time.isSome

/-- The difficulty check of the filter loop: skipped when `filters.difficulty`
is falsy (absent or the empty string); otherwise the metadata difficulty must
equal it. -/
def difficultyCheck (f : RecipeFilter) (m : Metadata) : Bool :=
  match f.difficulty with
  | none => true
  | some d => if d = [] then true else decide (m.difficulty = some d)

/-- One range check of the filter loop (`prep_time`, `cook_time` or
`servings`): inactive when both bounds are `None`; a missing or non-numeric
metadata value fails; otherwise both present bounds must hold inclusively. -/
def rangeCheck (minO maxO : Option Int) (v : Option MetaVal) : Bool :=
  if minO.isNone && maxO.isNone then true
  else
    match v with
    | none => false
    | some mv =>
      match mv.toIntOpt with
      | none => false
      | some n =>
        (match minO with | some lo => decide (lo ≤ n) | none => true) &&
        (match maxO with | some hi => decide (n ≤ hi) | none => true)

/-- Python substring membership `needle in hay`, starting-at-head case. -/
def headMatch : Str → Str → Bool
  | [], _ => true
  | _ :: _, [] => false
  | a :: as, b :: bs => a == b && headMatch as bs

/-- Python substring membership `needle in hay`. -/
def containsSub (needle : Str) : Str → Bool
  | [] => needle.isEmpty
  | h :: t => headMatch needle (h :: t) || containsSub needle t

/-- The `recipe_text` of the dietary check:
`" ".join([title.lower(), " ".join(ingredients).lower()])`. -/
def recipeText (m : Metadata) : Str :=
  lowerStr (m.title.getD []) ++ 32 :: lowerStr (joinSp (m.ingredients.getD []))

/-- One restriction of the dietary loop: verbatim keyword occurrence, or the
built-in `vegetarian` / `vegan` heuristics. -/
def dietaryMatch (text : Str) (restriction : Str) : Bool :=
  let rl := lowerStr restriction
  containsSub rl text ||
  (rl == str "vegetarian" && !containsSub (str "meat") text &&
    !containsSub (str "chicken") text && !containsSub (str "beef") text) ||
  (rl == str "vegan" &&
    ([str "meat", str "chicken", str "beef", str "cheese", str "milk",
      str "egg", str "butter"].all (fun kw => !containsSub kw text)))

/-- The dietary-restrictions check of the filter loop: skipped when the list
is falsy (absent or empty); otherwise at least one restriction must match
(the loop breaks on the first match). -/
def dietaryCheck (f : RecipeFilter) (m : Metadata) : Bool :=
  match f.dietary_restrictions with
  | none => true
  | some rs => if rs = [] then true else rs.any (dietaryMatch (recipeText m))

/-- The `max_total_time` check of the filter loop: missing components default
to `0` (`metadata.get('prep_time', 0)`); `int(...)` raising on either value
rejects; otherwise the sum must not exceed the bound. -/
def totalTimeCheck (f : RecipeFilter) (m : Metadata) : Bool :=
  match f.max_total_time with
  | none => true
  | some mt =>
    match (m.prep_time.getD (.intv 0)).toIntOpt, (m.cook_time.getD (.intv 0)).toIntOpt with
    | some pn, some cn => decide (pn + cn ≤ mt)
    | _, _ => false

/-- The body of the `for result in search_results` loop: a result is kept iff
its metadata is non-empty and every active check passes (each failed check
`continue`s). -/
def resultPasses (f : RecipeFilter) (r : SearchResult) : Bool :=
  match r.metadata with
  | none => false
  | some m =>
    difficultyCheck f m &&
    rangeCheck f.prep_time_min f.prep_time_max m.prep_time &&
    rangeCheck f.cook_time_min f.cook_time_max m.cook_time &&
    rangeCheck f.servings_min f.servings_max m.servings &&
    dietaryCheck f m &&
    totalTimeCheck f m

/-- `apply_metadata_filters` from `src/vector/filters.py`: return the input
unchanged when no filter is set or filtering is disabled in configuration,
otherwise keep exactly the results whose metadata passes every check. -/
def apply_metadata_filters (cfg : VectorConfig) (search_results : List SearchResult)
    (filters : RecipeFilter) : List SearchResult :=
  if !filters.has_filters then search_results
  else if !cfg.ENABLE_FILTERING then search_results
  else search_results.filter (resultPasses filters)

/-- One clause of `RecipeFilter._validate_range_filter`: a present bound must
lie within the configured absolute range. -/
def boundOutside (v : Option Int) (cfgMin cfgMax : Int) : Bool :=
  match v with
  | none => false
  | some x => decide (x < cfgMin) || decide (cfgMax < x)

/-- The final clause of `RecipeFilter._validate_range_filter`: both bounds
present with `min > max`. -/
def pairBad (minO maxO : Option Int) : Bool :=
  match minO, maxO with
  | some a, some b => decide (b < a)
  | _, _ => false

/-- Truthy `self.difficulty` naming an unsupported difficulty. -/
def difficultyBad (cfg : VectorConfig) (d : Option Str) : Bool :=
  match d with
  | none => false
  | some s => !(s == []) && !(cfg.SUPPORTED_DIFFICULTIES.contains s)

/-- Truthy `self.dietary_restrictions` holding an unsupported value (the
comparison is case-insensitive on both sides). -/
def dietaryBad (cfg : VectorConfig) (rs : Option (List Str)) : Bool :=
  match rs with
  | none => false
  | some l =>
    l.any (fun r =>
      !((cfg.SUPPORTED_DIETARY_RESTRICTIONS.map lowerStr).contains (lowerStr r)))

/-- A present `max_total_time` outside `[0, MAX_PREP + MAX_COOK]`. -/
def maxTotalBad (cfg : VectorConfig) (v : Option Int) : Bool :=
  match v with
  | none => false
  | some x =>
    decide (x < 0) || decide (cfg.MAX_PREP_TIME_FILTER + cfg.MAX_COOK_TIME_FILTER < x)

/-- Construction of a `RecipeFilter` (`__post_init__` running
`_validate_filters`): the first failing check raises `FilterValidationError`;
on success the dataclass holds exactly the passed fields. -/
def mkRecipeFilter (cfg : VectorConfig) (f : RecipeFilter) : Except Str RecipeFilter :=
  if difficultyBad cfg f.difficulty then .error (str "invalid difficulty")
  else if boundOutside f.prep_time_min cfg.MIN_PREP_TIME_FILTER cfg.MAX_PREP_TIME_FILTER then
    .error (str "prep_time_min out of range")
  else if boundOutside f.prep_time_max cfg.MIN_PREP_TIME_FILTER cfg.MAX_PREP_TIME_FILTER then
    .error (str "prep_time_max out of range")
  else if pairBad f.prep_time_min f.prep_time_max then
    .error (str "prep_time_min cannot be greater than prep_time_max")
  else if boundOutside f.cook_time_min cfg.MIN_COOK_TIME_FILTER cfg.MAX_COOK_TIME_FILTER then
    .error (str "cook_time_min out of range")
  else if boundOutside f.cook_time_max cfg.MIN_COOK_TIME_FILTER cfg.MAX_COOK_TIME_FILTER then
    .error (str "cook_time_max out of range")
  else if pairBad f.cook_time_min f.cook_time_max then
    .error (str "cook_time_min cannot be greater than cook_time_max")
  else if boundOutside f.servings_min cfg.MIN_SERVINGS_FILTER cfg.MAX_SERVINGS_FILTER then
    .error (str "servings_min out of range")
  else if boundOutside f.servings_max cfg.MIN_SERVINGS_FILTER cfg.MAX_SERVINGS_FILTER then
    .error (str "servings_max out of range")
  else if pairBad f.servings_min f.servings_max then
    .error (str "servings_min cannot be greater than servings_max")
  else if dietaryBad cfg f.dietary_restrictions then
    .error (str "invalid dietary restriction")
  else if maxTotalBad cfg f.max_total_time then
    .error (str "max_total_time out of range")
  else .ok f

/-- One row of a Chroma `collection.query` response as consumed by
`VectorRecipeStore.search_recipes`: an id, a cosine distance, the stored
metadata and document text. -/
structure ChromaRow where
  id : Nat
  distance : ℚ
  metadata : Metadata
  document : Str
deriving DecidableEq

/-- One element of the list returned by `search_recipes`. -/
structure DenseResult where
  id : Nat
  similarity : ℚ
  metadata : Metadata
  document : Str
deriving DecidableEq

/-- The result dict built for one backend row: `similarity = 1 - distance`. -/
def denseResultOfRow (row : ChromaRow) : DenseResult :=
  ⟨row.id, 1 - row.distance, row.metadata, row.document⟩

/-- The result-processing loop of `search_recipes`: compute
`similarity = 1 - distance` per row, drop rows below `min_similarity`,
keep the backend's row order. -/
def processQueryRows (rows : List ChromaRow) (minSim : ℚ) : List DenseResult :=
  rows.filterMap (fun row =>
    let sim := 1 - row.distance
    if sim < minSim then none else some (denseResultOfRow row))

/-- `n_results = n_results or self.config.DEFAULT_SEARCH_LIMIT`
(Python `or`: both `None` and `0` fall back to the default). -/
def effectiveNResults (cfg : VectorConfig) (n : Option Int) : Int :=
  match n with
  | none => cfg.DEFAULT_SEARCH_LIMIT
  | some v => if v = 0 then cfg.DEFAULT_SEARCH_LIMIT else v

/-- `min_similarity = min_similarity or (1 - self.config.SIMILARITY_THRESHOLD)`
(Python `or`: both `None` and `0.0` fall back to the default). -/
def effectiveMinSimilarity (cfg : VectorConfig) (m : Option ℚ) : ℚ :=
  match m with
  | none => 1 - cfg.SIMILARITY_THRESHOLD
  | some v => if v = 0 then 1 - cfg.SIMILARITY_THRESHOLD else v

/-- `VectorRecipeStore.search_recipes`: resolve the defaulted arguments,
query the backend (`collection.query`, an input parameter here) for the
resolved number of rows, and post-process the rows. -/
def search_recipes (cfg : VectorConfig) (backend : Int → List ChromaRow)
    (n_results : Option Int) (min_similarity : Option ℚ) : List DenseResult :=
  processQueryRows (backend (effectiveNResults cfg n_results))
    (effectiveMinSimilarity cfg min_similarity)

/-- A scored document coming out of one retrieval path (sparse or dense),
already sorted by that path's own criterion. -/
structure ScoredDoc where
  id : Nat
  score : ℚ
deriving DecidableEq

/-- Modelled from the spec: `search_recipes_hybrid` is absent from the source
snapshot (only its caller `UserRecipeCollection.search_user_recipes` and its
tests appear), so the fused-result record follows the spec's `FusedResult`. -/
structure FusedResult where
  id : Nat
  sparse_score : ℚ
  dense_score : ℚ
  rrf_sparse : ℚ
  rrf_dense : ℚ
  combined_score : ℚ
deriving DecidableEq

/-- 1-based rank of a document id within one path's ranked list, `none` when
the id does not appear there. -/
def rankOf : List Nat → Nat → Option Nat
  | [], _ => none
  | x :: xs, d => if x = d then some 1 else (rankOf xs d).map (· + 1)

/-- Modelled from the spec: the weighted RRF contribution of one path,
`w / (k + rank)` when the document is present there and `0` otherwise. -/
def rrfContrib (w k : ℚ) : Option Nat → ℚ
  | some r => w / (k + (r : ℚ))
  | none => 0

/-- Raw path score of a document, `0` when absent from that path's list. -/
def scoreOf (l : List ScoredDoc) (d : Nat) : ℚ :=
  match l.find? (fun sd => sd.id == d) with
  | some sd => sd.score
  | none => 0

/-- Modelled from the spec: the per-document fusion record of §4.5 — raw
scores retained, RRF contributions from each path, combined score their sum. -/
def fuseDoc (sparse dense : List ScoredDoc) (ws wd k : ℚ) (d : Nat) : FusedResult :=
  let rs := rrfContrib ws k (rankOf (sparse.map ScoredDoc.id) d)
  let rd := rrfContrib wd k (rankOf (dense.map ScoredDoc.id) d)
  ⟨d, scoreOf sparse d, scoreOf dense d, rs, rd, rs + rd⟩

/-- Modelled from the spec: the deduplicated union of the document ids of
both lists, in first-occurrence (insertion) order. -/
def unionIds (sparse dense : List ScoredDoc) : List Nat :=
  (sparse.map ScoredDoc.id ++ dense.map ScoredDoc.id).dedup

/-- Modelled from the spec: the Fusion Engine of §4.5 — fuse every document
id appearing in either list, sort by combined score descending (stable merge
sort, so ties keep insertion order), truncate to `n_results`. -/
def hybridFuse (sparse dense : List ScoredDoc) (ws wd k : ℚ) (nResults : Nat) :
    List FusedResult :=
  (((unionIds sparse dense).map (fuseDoc sparse dense ws wd k)).mergeSort
    (fun a b => b.combined_score ≤ a.combined_score)).take nResults

/-- C6: a `RecipeFilter` with every optional field unset reports
`has_filters() == false`, and `apply_metadata_filters` then returns the input
list unchanged (the short-circuit fires before any metadata is inspected);
`has_filters()` is `false` exactly when every field is `None`. -/
theorem empty_filter_short_circuits (f : RecipeFilter) :
    (f.has_filters = false ↔
      (f.difficulty = none ∧ f.prep_time_min = none ∧ f.prep_time_max = none ∧
       f.cook_time_min = none ∧ f.cook_time_max = none ∧ f.servings_min = none ∧
       f.servings_max = none ∧ f.dietary_restrictions = none ∧
       f.max_total_time = none)) ∧
    (f.has_filters = false →
      ∀ (cfg : VectorConfig) (rs : List SearchResult),
        apply_metadata_filters cfg rs f = rs) := by
  constructor
  · simp [RecipeFilter.has_filters, Option.isSome_iff_ne_none, and_assoc]
  · intro h cfg rs
    simp [apply_metadata_filters, h]

/-- Witness for C6 at the all-`none` filter and a concrete result list. -/
theorem empty_filter_short_circuits_witness :
    ({} : RecipeFilter).has_filters = false ∧
    apply_metadata_filters defaultVectorConfig [⟨7, none⟩] {} = [⟨7, none⟩] :=
  ⟨by decide,
   (empty_filter_short_circuits {}).2 (by decide) defaultVectorConfig [⟨7, none⟩]⟩

/-- C2: with a non-empty filter (and filtering enabled in configuration),
`apply_metadata_filters` is exactly the order-preserving sublist of the input
consisting of the elements passing every active check: it equals
`List.filter` of the pass predicate, is a sublist of the input (so every
survivor occurred in the input, order is unchanged and nothing is added or
duplicated), and every survivor satisfies the predicate. -/
theorem apply_filters_is_ordered_sublist (cfg : VectorConfig)
    (rs : List SearchResult) (f : RecipeFilter)
    (hf : f.has_filters = true) (he : cfg.ENABLE_FILTERING = true) :
    apply_metadata_filters cfg rs f = rs.filter (resultPasses f) ∧
    (apply_metadata_filters cfg rs f).Sublist rs ∧
    ∀ r ∈ apply_metadata_filters cfg rs f, resultPasses f r = true := by
  have h : apply_metadata_filters cfg rs f = rs.filter (resultPasses f) := by
    simp [apply_metadata_filters, hf, he]
  refine ⟨h, ?_, ?_⟩
  · rw [h]; exact List.filter_sublist rs
  · intro r hr
    rw [h] at hr
    exact (List.mem_filter.mp hr).2

/-- Witness for C2: a difficulty filter applied to a two-element list keeps
exactly the matching element. -/
theorem apply_filters_is_ordered_sublist_witness :
    ({ difficulty := some (str "Beginner") } : RecipeFilter).has_filters = true ∧
    defaultVectorConfig.ENABLE_FILTERING = true ∧
    (apply_metadata_filters defaultVectorConfig
        [⟨0, some { difficulty := some (str "Beginner") }⟩,
         ⟨1, some { difficulty := some (str "Advanced") }⟩]
        { difficulty := some (str "Beginner") } =
      [⟨0, some { difficulty := some (str "Beginner") }⟩,
       ⟨1, some { difficulty := some (str "Advanced") }⟩].filter
        (resultPasses { difficulty := some (str "Beginner") })) :=
  ⟨by decide, by decide,
   (apply_filters_is_ordered_sublist defaultVectorConfig
      [⟨0, some { difficulty := some (str "Beginner") }⟩,
       ⟨1, some { difficulty := some (str "Advanced") }⟩]
      { difficulty := some (str "Beginner") } (by decide) (by decide)).1⟩

/-- C3 counterexample: with `max_total_time = 10` active, a candidate whose
metadata is missing `prep_time` (holding only `cook_time = 5`) is NOT
rejected by `apply_metadata_filters` — the missing component is read as `0`
via `metadata.get('prep_time', 0)`, so the candidate survives, contradicting
the fail-closed reading of the claim. -/
theorem total_time_missing_component_passes :
    apply_metadata_filters defaultVectorConfig
      [⟨0, some { cook_time := some (.intv 5) }⟩]
      { max_total_time := some (10 : Int) } =
    [⟨0, some { cook_time := some (.intv 5) }⟩] := by decide

/-- C3 amended: with `max_total_time` active, a candidate holding a
non-numeric `prep_time` or `cook_time` is rejected (the `int(...)` failure
is fail-closed), but a missing component is treated as `0`, so a candidate
missing either time component passes exactly when the present component
alone is within the bound (missing `prep_time` with numeric `cook_time`,
and missing `cook_time` with numeric `prep_time`, symmetrically), and one
missing both components always passes a non-negative bound. -/
theorem total_time_nonnumeric_rejected (mt : Int) (m : Metadata) (i : Nat) :
    (m.prep_time = some .nonNumeric ∨ m.cook_time = some .nonNumeric →
      apply_metadata_filters defaultVectorConfig [⟨i, some m⟩]
        { max_total_time := some mt } = []) ∧
    (∀ c : Int, m.prep_time = none → m.cook_time = some (.intv c) →
      apply_metadata_filters defaultVectorConfig [⟨i, some m⟩]
        { max_total_time := some mt } =
        if c ≤ mt then [⟨i, some m⟩] else []) ∧
    (∀ p : Int, m.prep_time = some (.intv p) → m.cook_time = none →
      apply_metadata_filters defaultVectorConfig [⟨i, some m⟩]
        { max_total_time := some mt } =
        if p ≤ mt then [⟨i, some m⟩] else []) ∧
    (m.prep_time = none → m.cook_time = none → 0 ≤ mt →
      apply_metadata_filters defaultVectorConfig [⟨i, some m⟩]
        { max_total_time := some mt } = [⟨i, some m⟩]) := by
  have hpass : ∀ r : SearchResult,
      apply_metadata_filters defaultVectorConfig [r] { max_total_time := some mt } =
        if resultPasses { max_total_time := some mt } r then [r] else [] := by
    intro r
    cases h : resultPasses { max_total_time := some mt } r <;>
      simp [apply_metadata_filters, RecipeFilter.has_filters, defaultVectorConfig,
        List.filter, h]
  have hpasses : resultPasses { max_total_time := some mt } ⟨i, some m⟩ =
      totalTimeCheck { max_total_time := some mt } m := by
    simp [resultPasses, difficultyCheck, rangeCheck, dietaryCheck]
  refine ⟨?_, ?_, ?_, ?_⟩
  · intro h
    rw [hpass, hpasses]
    rcases h with h | h
    · simp [totalTimeCheck, h, MetaVal.toIntOpt]
    · cases hp : m.prep_time with
      | none => simp [totalTimeCheck, h, hp, MetaVal.toIntOpt]
      | some v => cases v <;> simp [totalTimeCheck, h, hp, MetaVal.toIntOpt]
  · intro c hp hc
    rw [hpass, hpasses]
    simp [totalTimeCheck, hp, hc, MetaVal.toIntOpt]
  · intro p hp hc
    rw [hpass, hpasses]
    simp [totalTimeCheck, hp, hc, MetaVal.toIntOpt]
  · intro hp hc hmt
    rw [hpass, hpasses]
    simp [totalTimeCheck, hp, hc, MetaVal.toIntOpt, hmt]

/-- Witness for the amended C3: a non-numeric `prep_time` is rejected under
`max_total_time = 100`. -/
theorem total_time_nonnumeric_rejected_witness :
    apply_metadata_filters defaultVectorConfig
      [⟨0, some { prep_time := some .nonNumeric }⟩]
      { max_total_time := some (100 : Int) } = [] :=
  (total_time_nonnumeric_rejected 100 { prep_time := some .nonNumeric } 0).1
    (Or.inl rfl)

/-- C10: in `search_recipes`, both `n_results = 0` and `min_similarity = 0.0`
are falsy and fall back to the configured defaults exactly as omitted
arguments do; the defaults are result limit `10` and minimum similarity
`1 - SIMILARITY_THRESHOLD = 1 - 0.7 = 0.3`. -/
theorem zero_arguments_fall_back_to_defaults :
    effectiveNResults defaultVectorConfig (some 0) =
      effectiveNResults defaultVectorConfig none ∧
    effectiveMinSimilarity defaultVectorConfig (some 0) =
      effectiveMinSimilarity defaultVectorConfig none ∧
    effectiveNResults defaultVectorConfig none = 10 ∧
    effectiveMinSimilarity defaultVectorConfig none =
      1 - defaultVectorConfig.SIMILARITY_THRESHOLD ∧
    effectiveMinSimilarity defaultVectorConfig none = 3/10 ∧
    ∀ (backend : Int → List ChromaRow),
      search_recipes defaultVectorConfig backend (some 0) (some 0) =
        search_recipes defaultVectorConfig backend none none := by
  refine ⟨rfl, rfl, rfl, rfl, by norm_num [effectiveMinSimilarity, defaultVectorConfig], ?_⟩
  intro backend
  rfl

/-- Inversion step for the validation chain: a successful construction passed
the guard at the head of the chain. -/
theorem guardInv {c : Bool} {msg : Str} {rest : Except Str RecipeFilter}
    {g : RecipeFilter}
    (h : (if c = true then Except.error msg else rest) = .ok g) :
    c = false ∧ rest = .ok g := by
  cases c <;> simp_all

/-- Inversion of a successful `RecipeFilter` construction: the input is
returned unchanged and no present min/max pair has `min > max`. -/
theorem mkRecipeFilter_ok_inv (cfg : VectorConfig) (f g : RecipeFilter)
    (h : mkRecipeFilter cfg f = .ok g) :
    g = f ∧ pairBad f.prep_time_min f.prep_time_max = false ∧
      pairBad f.cook_time_min f.cook_time_max = false ∧
      pairBad f.servings_min f.servings_max = false := by
  unfold mkRecipeFilter at h
  obtain ⟨c1, h⟩ := guardInv h
  obtain ⟨c2, h⟩ := guardInv h
  obtain ⟨c3, h⟩ := guardInv h
  obtain ⟨c4, h⟩ := guardInv h
  obtain ⟨c5, h⟩ := guardInv h
  obtain ⟨c6, h⟩ := guardInv h
  obtain ⟨c7, h⟩ := guardInv h
  obtain ⟨c8, h⟩ := guardInv h
  obtain ⟨c9, h⟩ := guardInv h
  obtain ⟨c10, h⟩ := guardInv h
  obtain ⟨c11, h⟩ := guardInv h
  obtain ⟨c12, h⟩ := guardInv h
  exact ⟨(Except.ok.inj h).symm, c4, c7, c10⟩

/-- C4: constructing a `RecipeFilter` with a present `*_min` exceeding its
paired `*_max` (for `prep_time`, `cook_time` or `servings`) always fails with
a validation error, for every configuration; and whenever construction
succeeds, the returned filter carries the passed fields unchanged (never
swapped or clamped) and every present min/max pair satisfies `min ≤ max`. -/
theorem filter_min_max_validation (cfg : VectorConfig) (f g : RecipeFilter) :
    (((∃ a b, f.prep_time_min = some a ∧ f.prep_time_max = some b ∧ b < a) ∨
      (∃ a b, f.cook_time_min = some a ∧ f.cook_time_max = some b ∧ b < a) ∨
      (∃ a b, f.servings_min = some a ∧ f.servings_max = some b ∧ b < a)) →
      ∃ msg, mkRecipeFilter cfg f = .error msg) ∧
    (mkRecipeFilter cfg f = .ok g →
      g = f ∧
      (∀ a b, f.prep_time_min = some a → f.prep_time_max = some b → a ≤ b) ∧
      (∀ a b, f.cook_time_min = some a → f.cook_time_max = some b → a ≤ b) ∧
      (∀ a b, f.servings_min = some a → f.servings_max = some b → a ≤ b)) := by
  constructor
  · intro h
    cases hE : mkRecipeFilter cfg f with
    | error msg => exact ⟨msg, rfl⟩
    | ok g2 =>
      exfalso
      obtain ⟨-, p1, p2, p3⟩ := mkRecipeFilter_ok_inv cfg f g2 hE
      rcases h with ⟨a, b, ha, hb, hab⟩ | ⟨a, b, ha, hb, hab⟩ | ⟨a, b, ha, hb, hab⟩
      · rw [ha, hb] at p1; simp [pairBad] at p1; omega
      · rw [ha, hb] at p2; simp [pairBad] at p2; omega
      · rw [ha, hb] at p3; simp [pairBad] at p3; omega
  · intro hok
    obtain ⟨hg, p1, p2, p3⟩ := mkRecipeFilter_ok_inv cfg f g hok
    refine ⟨hg, ?_, ?_, ?_⟩
    · intro a b ha hb; rw [ha, hb] at p1; simp [pairBad] at p1; omega
    · intro a b ha hb; rw [ha, hb] at p2; simp [pairBad] at p2; omega
    · intro a b ha hb; rw [ha, hb] at p3; simp [pairBad] at p3; omega

/-- Witness for C4: `prep_time_min = 60 > prep_time_max = 30` fails
construction. -/
theorem filter_min_max_validation_witness :
    ∃ msg, mkRecipeFilter defaultVectorConfig
      { prep_time_min := some 60, prep_time_max := some 30 } = .error msg :=
  (filter_min_max_validation defaultVectorConfig
      { prep_time_min := some 60, prep_time_max := some 30 }
      { prep_time_min := some 60, prep_time_max := some 30 }).1
      (Or.inl ⟨60, 30, rfl, rfl, by omega⟩)

/-- C5: with `dietary_restrictions` set to a non-empty list, a candidate
passes the whole filter exactly when it passes every other active dimension
(logical AND) and at least one requested restriction matches (logical OR via
`List.any`, mirroring the first-match `break`); and one restriction matches
exactly when its lower-cased keyword occurs verbatim in the lower-cased
title-plus-ingredients text, or the built-in `vegetarian` heuristic (no
`meat`/`chicken`/`beef` occurrence) or `vegan` heuristic (no
`meat`/`chicken`/`beef`/`cheese`/`milk`/`egg`/`butter` occurrence) fires. -/
theorem dietary_or_across_restrictions (f : RecipeFilter) (m : Metadata)
    (i : Nat) (rs : List Str)
    (h : f.dietary_restrictions = some rs) (hne : rs ≠ []) :
    resultPasses f ⟨i, some m⟩ =
      (difficultyCheck f m &&
       rangeCheck f.prep_time_min f.prep_time_max m.prep_time &&
       rangeCheck f.cook_time_min f.cook_time_max m.cook_time &&
       rangeCheck f.servings_min f.servings_max m.servings &&
       rs.any (dietaryMatch (recipeText m)) &&
       totalTimeCheck f m) ∧
    ∀ re, dietaryMatch (recipeText m) re =
      (containsSub (lowerStr re) (recipeText m) ||
       (lowerStr re == str "vegetarian" &&
        !containsSub (str "meat") (recipeText m) &&
        !containsSub (str "chicken") (recipeText m) &&
        !containsSub (str "beef") (recipeText m)) ||
       (lowerStr re == str "vegan" &&
        ([str "meat", str "chicken", str "beef", str "cheese", str "milk",
          str "egg", str "butter"].all
          (fun kw => !containsSub kw (recipeText m))))) := by
  constructor
  · simp [resultPasses, dietaryCheck, h, hne]
  · intro re
    rfl

/-- Witness for C5: a one-restriction vegetarian filter on meat-free
metadata. -/
theorem dietary_or_across_restrictions_witness :
    resultPasses { dietary_restrictions := some [str "vegetarian"] }
      ⟨0, some { title := some (str "Veggie Bowl"),
                 ingredients := some [str "rice"] }⟩ =
      (difficultyCheck { dietary_restrictions := some [str "vegetarian"] }
        { title := some (str "Veggie Bowl"), ingredients := some [str "rice"] } &&
       rangeCheck none none none && rangeCheck none none none &&
       rangeCheck none none none &&
       [str "vegetarian"].any (dietaryMatch (recipeText
         { title := some (str "Veggie Bowl"), ingredients := some [str "rice"] })) &&
       totalTimeCheck { dietary_restrictions := some [str "vegetarian"] }
         { title := some (str "Veggie Bowl"), ingredients := some [str "rice"] }) :=
  (dietary_or_across_restrictions
    { dietary_restrictions := some [str "vegetarian"] }
    { title := some (str "Veggie Bowl"), ingredients := some [str "rice"] }
    0 [str "vegetarian"] rfl (by decide)).1

/-- C7: the result processing of `search_recipes` maps each backend row to a
result with `similarity = 1 − cosine_distance`, drops exactly the rows whose
similarity falls below the threshold (keeping the backend's order among
survivors), every returned similarity meets the threshold, and when the
backend rows come in ascending-distance (descending-similarity) order the
surviving results are in descending-similarity order. -/
theorem dense_similarity_threshold_order (rows : List ChromaRow) (minSim : ℚ) :
    processQueryRows rows minSim =
      (rows.map denseResultOfRow).filter (fun r => !(r.similarity < minSim)) ∧
    (∀ r ∈ processQueryRows rows minSim,
      minSim ≤ r.similarity ∧
      ∃ row ∈ rows, r = denseResultOfRow row ∧ r.similarity = 1 - row.distance) ∧
    (rows.Pairwise (fun a b => a.distance ≤ b.distance) →
      (processQueryRows rows minSim).Pairwise
        (fun a b => b.similarity ≤ a.similarity)) := by
  have heq : processQueryRows rows minSim =
      (rows.map denseResultOfRow).filter (fun r => !(r.similarity < minSim)) := by
    induction rows with
    | nil => rfl
    | cons row rest ih =>
      by_cases h : 1 - row.distance < minSim <;>
        simp [processQueryRows, denseResultOfRow, h, List.filter] at ih ⊢ <;>
        exact ih
  refine ⟨heq, ?_, ?_⟩
  · intro r hr
    rw [heq] at hr
    obtain ⟨hmem, hkeep⟩ := List.mem_filter.mp hr
    obtain ⟨row, hrow, hrw⟩ := List.mem_map.mp hmem
    refine ⟨?_, row, hrow, hrw.symm, ?_⟩
    · simp at hkeep
      exact hkeep
    · rw [← hrw]; rfl
  · intro hsorted
    rw [heq]
    refine List.Pairwise.filter _ ?_
    refine hsorted.map denseResultOfRow ?_
    intro a b hab
    show 1 - b.distance ≤ 1 - a.distance
    linarith

/-- Witness for C7: two ascending-distance backend rows under threshold `0`
yield descending-similarity survivors. -/
theorem dense_similarity_threshold_order_witness :
    ([⟨1, 0, {}, []⟩, ⟨2, 1, {}, []⟩] : List ChromaRow).Pairwise
      (fun a b => a.distance ≤ b.distance) ∧
    (processQueryRows [⟨1, 0, {}, []⟩, ⟨2, 1, {}, []⟩] 0).Pairwise
      (fun a b => b.similarity ≤ a.similarity) :=
  ⟨by decide,
   (dense_similarity_threshold_order [⟨1, 0, {}, []⟩, ⟨2, 1, {}, []⟩]
      0).2.2 (by decide)⟩

/-- C1: every fused result carries `rrf_sparse = w_sparse / (k + rank)` when
its id holds 1-based rank `rank` in the sparse list and `0` when absent,
symmetrically for `rrf_dense`; its `combined_score` is the sum of the two
contributions; and the output is the deduplicated union of both lists'
documents sorted by `combined_score` descending, truncated to `n_results`. -/
theorem rrf_fusion_properties (sparse dense : List ScoredDoc) (ws wd k : ℚ)
    (n : Nat) :
    (∀ f ∈ hybridFuse sparse dense ws wd k n,
      (∀ r : Nat, rankOf (sparse.map ScoredDoc.id) f.id = some r →
        f.rrf_sparse = ws / (k + r)) ∧
      (rankOf (sparse.map ScoredDoc.id) f.id = none → f.rrf_sparse = 0) ∧
      (∀ r : Nat, rankOf (dense.map ScoredDoc.id) f.id = some r →
        f.rrf_dense = wd / (k + r)) ∧
      (rankOf (dense.map ScoredDoc.id) f.id = none → f.rrf_dense = 0) ∧
      f.combined_score = f.rrf_sparse + f.rrf_dense) ∧
    (∃ full : List FusedResult,
      full.Perm ((unionIds sparse dense).map (fuseDoc sparse dense ws wd k)) ∧
      full.Pairwise (fun a b => b.combined_score ≤ a.combined_score) ∧
      hybridFuse sparse dense ws wd k n = full.take n) := by
  constructor
  · intro f hf
    have hmem : f ∈ (unionIds sparse dense).map (fuseDoc sparse dense ws wd k) :=
      List.mem_mergeSort.mp (List.mem_of_mem_take hf)
    obtain ⟨d, hd, hfd⟩ := List.mem_map.mp hmem
    subst hfd
    refine ⟨?_, ?_, ?_, ?_, rfl⟩
    · intro r hr
      simp only [fuseDoc] at hr ⊢
      rw [hr]
      simp [rrfContrib]
    · intro hr
      simp only [fuseDoc] at hr ⊢
      rw [hr]
      simp [rrfContrib]
    · intro r hr
      simp only [fuseDoc] at hr ⊢
      rw [hr]
      simp [rrfContrib]
    · intro hr
      simp only [fuseDoc] at hr ⊢
      rw [hr]
      simp [rrfContrib]
  · refine ⟨((unionIds sparse dense).map (fuseDoc sparse dense ws wd k)).mergeSort
      (fun a b => b.combined_score ≤ a.combined_score),
      List.mergeSort_perm _ _, ?_, rfl⟩
    have hs := @List.sorted_mergeSort FusedResult
      (fun a b : FusedResult => decide (b.combined_score ≤ a.combined_score))
      (fun a b c hab hbc => by
        simp only [decide_eq_true_eq] at hab hbc ⊢
        exact le_trans hbc hab)
      (fun a b => by
        simp only [Bool.or_eq_true, decide_eq_true_eq]
        exact le_total _ _)
      ((unionIds sparse dense).map (fuseDoc sparse dense ws wd k))
    exact hs.imp (fun h => of_decide_eq_true h)

/-- Witness for C1: with one sparse document and an empty dense list, the
fused entry's combined score is the sum of its two RRF contributions. -/
theorem rrf_fusion_properties_witness :
    (fuseDoc [⟨1, 5⟩] [] (1/2) (1/2) 60 1).combined_score =
      (fuseDoc [⟨1, 5⟩] [] (1/2) (1/2) 60 1).rrf_sparse +
      (fuseDoc [⟨1, 5⟩] [] (1/2) (1/2) 60 1).rrf_dense :=
  ((rrf_fusion_properties [⟨1, 5⟩] [] (1/2) (1/2) 60 1).1
    (fuseDoc [⟨1, 5⟩] [] (1/2) (1/2) 60 1)
    (by simp [hybridFuse, unionIds])).2.2.2.2

/-- Every character surviving the substitution step is whitespace or a
lowercase ASCII alphanumeric. -/
theorem subCp_ws_or_lower (n : Nat) :
    isWsCp (subCp n) = true ∨ isLowerAlnumCp (subCp n) = true := by
  simp only [subCp, lowerCp, isAlnumCp, isWsCp, isLowerAlnumCp]
  split_ifs with h1 h2 h3 <;> simp_all <;> omega

/-- Lower-casing fixes a lowercase alphanumeric code point. -/
theorem lowerCp_fix (n : Nat) (h : isLowerAlnumCp n = true) : lowerCp n = n := by
  simp only [isLowerAlnumCp] at h
  simp only [lowerCp]
  split_ifs with hs
  · simp at h; omega
  · rfl

/-- Lower-casing fixes a token of lowercase alphanumerics. -/
theorem lowerStr_fix (t : Str) (h : ∀ c ∈ t, isLowerAlnumCp c = true) :
    lowerStr t = t := by
  induction t with
  | nil => rfl
  | cons a as ih =>
    have ha : lowerCp a = a := lowerCp_fix a (h a (by simp))
    have hr : lowerStr as = as := ih (fun c hc => h c (by simp [hc]))
    simp only [lowerStr, List.map_cons] at hr ⊢
    rw [ha, hr]

/-- Tokens produced by the whitespace splitter are non-empty and consist of
characters satisfying `P`, provided every input character is whitespace or
satisfies `P` (and the pending partial token already satisfies `P`). -/
theorem splitWsGo_sound (P : Nat → Bool) :
    ∀ (l cur : Str), (∀ c ∈ cur, P c = true) →
      (∀ c ∈ l, isWsCp c = true ∨ P c = true) →
      ∀ t ∈ splitWsGo cur l, t ≠ [] ∧ ∀ c ∈ t, P c = true := by
  intro l
  induction l with
  | nil =>
    intro cur hc _ t ht
    by_cases h : cur = []
    · simp [splitWsGo, h] at ht
    · simp [splitWsGo, h] at ht
      subst ht
      refine ⟨by simpa using h, fun c hcm => hc c (List.mem_reverse.mp hcm)⟩
  | cons a as ih =>
    intro cur hc hl t ht
    by_cases hws : isWsCp a = true
    · by_cases h : cur = []
      · simp only [splitWsGo, hws, if_true, h, if_pos rfl] at ht
        exact ih [] (by simp) (fun c hcm => hl c (by simp [hcm])) t ht
      · simp only [splitWsGo, hws, if_true, if_neg h] at ht
        rcases List.mem_cons.mp ht with hteq | ht2
        · subst hteq
          refine ⟨by simpa using h, fun c hcm => hc c (List.mem_reverse.mp hcm)⟩
        · exact ih [] (by simp) (fun c hcm => hl c (by simp [hcm])) t ht2
    · simp only [splitWsGo, hws, if_false, Bool.false_eq_true] at ht
      have hpa : P a = true := by
        rcases hl a (by simp) with h | h
        · exact absurd h hws
        · exact h
      refine ih (a :: cur) ?_ (fun c hcm => hl c (by simp [hcm])) t ht
      intro c hcm
      rcases List.mem_cons.mp hcm with rfl | hcm2
      · exact hpa
      · exact hc c hcm2

/-- Splitting distributes over a whitespace separator: the pending token is
flushed at the separator exactly as at the end of input. -/
theorem splitWsGo_append (w : Nat) (hw : isWsCp w = true) :
    ∀ (x cur y : Str),
      splitWsGo cur (x ++ w :: y) = splitWsGo cur x ++ splitWsGo [] y := by
  intro x
  induction x with
  | nil =>
    intro cur y
    by_cases h : cur = [] <;> simp [splitWsGo, hw, h]
  | cons a as ih =>
    intro cur y
    by_cases hws : isWsCp a = true
    · by_cases h : cur = [] <;> simp [splitWsGo, hws, h, ih]
    · simp [splitWsGo, hws, ih]

/-- `tokenize_text` distributes over space-joining: the tokens of
`' '.join(parts)` are the concatenation of each part's tokens. -/
theorem tokenize_join :
    ∀ L : List Str, tokenize_text (joinSp L) = (L.map tokenize_text).flatten := by
  intro L
  induction L with
  | nil => rfl
  | cons x xs ih =>
    cases xs with
    | nil => simp [joinSp, tokenize_text]
    | cons y rest =>
      show tokenize_text (x ++ 32 :: joinSp (y :: rest)) = _
      unfold tokenize_text splitWs
      rw [show (x ++ 32 :: joinSp (y :: rest)).map subCp =
            x.map subCp ++ 32 :: (joinSp (y :: rest)).map subCp by
          simp
          rfl]
      rw [splitWsGo_append 32 rfl]
      unfold tokenize_text splitWs at ih
      rw [ih]
      simp

/-- The keyword filter distributes over concatenation. -/
theorem filterKeywords_append (cfg : VectorConfig) (a b : List Str) :
    filterKeywords cfg (a ++ b) = filterKeywords cfg a ++ filterKeywords cfg b := by
  simp [filterKeywords]

/-- The keyword filter distributes over flattening. -/
theorem filterKeywords_flatten (cfg : VectorConfig) :
    ∀ L : List (List Str),
      filterKeywords cfg L.flatten = (L.map (filterKeywords cfg)).flatten := by
  intro L
  induction L with
  | nil => rfl
  | cons x xs ih => simp [filterKeywords_append, ih]

/-- C8: the query pipeline equals filtering the tokens of the staged
lower-case/substitute/split tokenization, and every output token is
non-empty, entirely lowercase ASCII alphanumeric, at least
`MIN_KEYWORD_LENGTH` long (default 2) and — with stopword removal enabled,
the default — not in the fixed cooking stopword set, which contains `add`,
`then`, `into` and `until`. -/
theorem query_keyword_properties (cfg : VectorConfig) (q : Str) :
    extract_query_keywords cfg q =
      filterKeywords cfg (splitWs ((q.map lowerCp).map
        (fun d => if isAlnumCp d || isWsCp d then d else 32))) ∧
    (∀ t ∈ extract_query_keywords cfg q,
      t ≠ [] ∧ (∀ c ∈ t, isLowerAlnumCp c = true) ∧
      cfg.MIN_KEYWORD_LENGTH ≤ t.length ∧
      (cfg.STOPWORDS_ENABLED = true → COOKING_STOPWORDS.contains t = false)) ∧
    defaultVectorConfig.MIN_KEYWORD_LENGTH = 2 ∧
    defaultVectorConfig.STOPWORDS_ENABLED = true ∧
    COOKING_STOPWORDS.contains (str "add") = true ∧
    COOKING_STOPWORDS.contains (str "then") = true ∧
    COOKING_STOPWORDS.contains (str "into") = true ∧
    COOKING_STOPWORDS.contains (str "until") = true := by
  refine ⟨?_, ?_, rfl, rfl, by decide, by decide, by decide, by decide⟩
  · unfold extract_query_keywords tokenize_text
    rw [List.map_map]
    rfl
  · intro t ht
    unfold extract_query_keywords filterKeywords tokenize_text splitWs at ht
    obtain ⟨t0, ht0, rfl⟩ := List.mem_map.mp ht
    obtain ⟨htok, hpred⟩ := List.mem_filter.mp ht0
    have hprops := splitWsGo_sound isLowerAlnumCp (q.map subCp) [] (by simp)
      (fun c hc => by
        obtain ⟨n, _, rfl⟩ := List.mem_map.mp hc
        exact subCp_ws_or_lower n) t0 htok
    have hfix : lowerStr t0 = t0 := lowerStr_fix t0 hprops.2
    rw [hfix]
    obtain ⟨hlen, hstop⟩ := (Bool.and_eq_true _ _).mp hpred
    refine ⟨hprops.1, hprops.2, by simpa using hlen, ?_⟩
    intro hen
    rw [hen, hfix] at hstop
    simpa using hstop

/-- Witness for C8: the token `chicken` extracted from `"Add some chicken!"`
has all the claimed properties. -/
theorem query_keyword_properties_witness :
    str "chicken" ≠ [] ∧
    (∀ c ∈ str "chicken", isLowerAlnumCp c = true) ∧
    defaultVectorConfig.MIN_KEYWORD_LENGTH ≤ (str "chicken").length ∧
    (defaultVectorConfig.STOPWORDS_ENABLED = true →
      COOKING_STOPWORDS.contains (str "chicken") = false) :=
  (query_keyword_properties defaultVectorConfig (str "Add some chicken!")).2.1
    (str "chicken") (by decide)

/-- C9: document tokenization for sparse indexing equals the keyword-filtered
tokenization of the space-join of (title, title, ingredients, instructions);
it decomposes as the title's keywords twice followed by the ingredient and
instruction keywords, so every token occurs twice as often from the title as
a single title occurrence would yield. -/
theorem title_tokens_counted_twice (cfg : VectorConfig) (r : Recipe) :
    extract_recipe_keywords cfg r =
      filterKeywords cfg (tokenize_text
        (joinSp ([r.title, r.title] ++ r.ingredients ++ r.instructions))) ∧
    extract_recipe_keywords cfg r =
      extract_query_keywords cfg r.title ++ extract_query_keywords cfg r.title ++
        ((r.ingredients ++ r.instructions).map (extract_query_keywords cfg)).flatten ∧
    ∀ t : Str, (extract_recipe_keywords cfg r).count t =
      2 * (extract_query_keywords cfg r.title).count t +
        (((r.ingredients ++ r.instructions).map
          (extract_query_keywords cfg)).flatten).count t := by
  have hdec : extract_recipe_keywords cfg r =
      extract_query_keywords cfg r.title ++ extract_query_keywords cfg r.title ++
        ((r.ingredients ++ r.instructions).map (extract_query_keywords cfg)).flatten := by
    unfold extract_recipe_keywords
    rw [tokenize_join, filterKeywords_flatten]
    simp only [List.map_append, List.map_cons, List.map_nil, List.map_map,
      List.flatten_append, List.flatten_cons, List.flatten_nil]
    simp [extract_query_keywords, Function.comp, List.append_assoc]
    rfl
  refine ⟨rfl, hdec, ?_⟩
  intro t
  rw [hdec]
  simp [List.count_append]
  omega
